import Mathlib

/-!
Shallow embedding of the ShadowSimulator pipeline (`main.py`) over the reals.

Conventions of the embedding:
* Python floats are modelled as real numbers (`ℝ`); the spec's properties are
  stated "exactly over a real-number embedding".
* Python `None` fields are modelled with `Option ℝ`.
* Python exceptions are modelled with `Except String`; a function that can
  raise returns `Except String _`, and a `try/except` boundary pattern-matches
  on the result.
* Timestamps are modelled as minutes since midnight UTC (`Nat`); the calendar
  date only affects the printed string in the source, never the arithmetic.
* Python `%` on floats with a positive modulus, `x % 360`, is
  `x - 360 * ⌊x / 360⌋` (result has the sign of the divisor), embedded below
  as `fmod360`.
* `math.radians x` is `x * π / 180`; `math.hypot` and `math.atan2` are
  embedded via `Real.sqrt` and the complex argument (`Complex.arg (x + y*I)`
  is the mathematical atan2 of `y, x`).
-/

namespace ShadowSim

open Real

/-- A solar position sample, one row of the list built by
`calculate_sun_positions` in `main.py`: time, solar altitude (degrees) and
solar azimuth (degrees). -/
structure SolarSample where
  time : Nat
  altitude : ℝ
  azimuth : ℝ

/-- One row of the list built by `calculate_shadow`: time, shadow length and
shadow direction; the two numeric fields are `None` when the sun is at or
below the horizon. -/
structure ShadowRecord where
  time : Nat
  shadow_length : Option ℝ
  shadow_direction : Option ℝ

/-- One row of the list built by `calculate_shadow_coordinates`: the shadow
segment from `(x1, y1)` to `(x2, y2)`; all four fields are `None` in the
no-shadow case, and `(x1, y1) = (0, 0)` otherwise. -/
structure ShadowSegment where
  time : Nat
  x1 : Option ℝ
  y1 : Option ℝ
  x2 : Option ℝ
  y2 : Option ℝ

/-- One row of the list built by `calculate_irradiance`: irradiance outside
and inside the shadow (W/m²). -/
structure IrradianceRecord where
  time : Nat
  E_outside_shadow : ℝ
  E_inside_shadow : ℝ

/-- `math.radians`: degrees to radians. -/
noncomputable def radians (x : ℝ) : ℝ := x * Real.pi / 180

/-- Python float `%` with modulus `360`: `x - 360 * ⌊x / 360⌋`, the
representative of `x` modulo 360 lying in `[0, 360)`. -/
noncomputable def fmod360 (x : ℝ) : ℝ := x - 360 * ⌊x / 360⌋

/-- `math.hypot x y`: the Euclidean norm `√(x² + y²)`. -/
noncomputable def hypot (x y : ℝ) : ℝ := Real.sqrt (x ^ 2 + y ^ 2)

/-- `math.atan2 y x`: the angle of the point `(x, y)`, in `(-π, π]`, embedded
as the argument of the complex number `x + y·i`. -/
noncomputable def atan2 (y x : ℝ) : ℝ := Complex.arg (x + y * Complex.I)

/-- Body of the per-entry loop of `calculate_shadow` (`main.py` lines
168-191).  The Python global `pole_height` is passed explicitly.  When the
sun is above the horizon, `shadow_length = pole_height / tan(radians
altitude)` and `shadow_direction = (azimuth + 180) % 360`; otherwise both
fields are `None`. -/
noncomputable def shadow_entry (pole_height : ℝ) (entry : SolarSample) : ShadowRecord :=
  if entry.altitude > 0 then
    { time := entry.time
      shadow_length := some (pole_height / Real.tan (radians entry.altitude))
      shadow_direction := some (fmod360 (entry.azimuth + 180)) }
  else
    { time := entry.time, shadow_length := none, shadow_direction := none }

/-- `calculate_shadow` (`main.py` lines 157-193): per-entry mapping of
`shadow_entry` over the sun data, in order. -/
noncomputable def calculate_shadow (pole_height : ℝ) (sun_data : List SolarSample) :
    List ShadowRecord :=
  sun_data.map (shadow_entry pole_height)

/-- Body of the per-entry loop of `calculate_shadow_coordinates` (`main.py`
lines 249-273).  The Python code branches only on `shadow_length is not
None` and then reads `shadow_direction` unconditionally; if the direction
were `None` there, `math.radians(None)` would raise a `TypeError`, which the
embedding models as `Except.error`. -/
noncomputable def coord_entry (entry : ShadowRecord) : Except String ShadowSegment :=
  match entry.shadow_length with
  | some shadow_length =>
    match entry.shadow_direction with
    | some shadow_direction =>
      Except.ok
        { time := entry.time
          x1 := some 0
          y1 := some 0
          x2 := some (shadow_length * Real.cos (radians shadow_direction))
          y2 := some (shadow_length * Real.sin (radians shadow_direction)) }
    | none => Except.error "TypeError"
  | none =>
    Except.ok { time := entry.time, x1 := none, y1 := none, x2 := none, y2 := none }

/-- `calculate_shadow_coordinates` (`main.py` lines 240-275): the loop over
the shadow data, building the coordinate list in order; an exception raised
at any entry aborts the whole call (the partially built list is discarded). -/
noncomputable def calculate_shadow_coordinates :
    List ShadowRecord → Except String (List ShadowSegment)
  | [] => Except.ok []
  | entry :: rest =>
    match coord_entry entry with
    | Except.error e => Except.error e
    | Except.ok seg =>
      match calculate_shadow_coordinates rest with
      | Except.error e => Except.error e
      | Except.ok segs => Except.ok (seg :: segs)

/-- Body of the per-entry loop of `calculate_irradiance` (`main.py` lines
29-57).  Above the horizon, `E_direct = E_clear * sin(radians altitude)`,
`E_diffuse = 0.15 * E_clear`, outside = direct + diffuse, inside = diffuse;
otherwise both are `0`.  The Python default `E_clear = 1361` is applied at
the call sites. -/
noncomputable def irradiance_entry (E_clear : ℝ) (entry : SolarSample) : IrradianceRecord :=
  if entry.altitude > 0 then
    let E_direct := E_clear * Real.sin (radians entry.altitude)
    let E_diffuse := 0.15 * E_clear
    { time := entry.time
      E_outside_shadow := E_direct + E_diffuse
      E_inside_shadow := E_diffuse }
  else
    { time := entry.time, E_outside_shadow := 0, E_inside_shadow := 0 }

/-- `calculate_irradiance` (`main.py` lines 19-59): per-entry mapping of
`irradiance_entry` over the sun data, in order. -/
noncomputable def calculate_irradiance (sun_data : List SolarSample) (E_clear : ℝ) :
    List IrradianceRecord :=
  sun_data.map (irradiance_entry E_clear)

/-- Per-sample composite of the shadow and projection stages: what
`coord_entry (shadow_entry pole_height s)` always succeeds with.  Used to
describe the pipeline composition `calculate_shadow_coordinates ∘
calculate_shadow`. -/
noncomputable def proj_entry (pole_height : ℝ) (s : SolarSample) : ShadowSegment :=
  if s.altitude > 0 then
    { time := s.time
      x1 := some 0
      y1 := some 0
      x2 := some (pole_height / Real.tan (radians s.altitude) *
        Real.cos (radians (fmod360 (s.azimuth + 180))))
      y2 := some (pole_height / Real.tan (radians s.altitude) *
        Real.sin (radians (fmod360 (s.azimuth + 180)))) }
  else
    { time := s.time, x1 := none, y1 := none, x2 := none, y2 := none }

theorem coord_entry_shadow_entry (pole_height : ℝ) (s : SolarSample) :
    coord_entry (shadow_entry pole_height s) = Except.ok (proj_entry pole_height s) := by
  by_cases h : s.altitude > 0 <;> simp [coord_entry, shadow_entry, proj_entry, h]

theorem calculate_shadow_coordinates_shadow (pole_height : ℝ) (sun_data : List SolarSample) :
    calculate_shadow_coordinates (calculate_shadow pole_height sun_data) =
      Except.ok (sun_data.map (proj_entry pole_height)) := by
  induction sun_data with
  | nil => rfl
  | cons s rest ih =>
    simp only [calculate_shadow, List.map_cons, calculate_shadow_coordinates,
      coord_entry_shadow_entry]
    rw [show List.map (shadow_entry pole_height) rest = calculate_shadow pole_height rest
      from rfl, ih]

theorem fmod360_nonneg (x : ℝ) : 0 ≤ fmod360 x := by
  have h := Int.floor_le (x / 360)
  have h360 : (0 : ℝ) < 360 := by norm_num
  have := (mul_le_mul_left h360).mpr h
  rw [mul_div_cancel₀ x (ne_of_gt h360)] at this
  unfold fmod360
  linarith

theorem fmod360_lt (x : ℝ) : fmod360 x < 360 := by
  have h := Int.lt_floor_add_one (x / 360)
  have h360 : (0 : ℝ) < 360 := by norm_num
  have := (mul_lt_mul_left h360).mpr h
  rw [mul_div_cancel₀ x (ne_of_gt h360)] at this
  unfold fmod360
  linarith

theorem fmod360_eq_self {x : ℝ} (h0 : 0 ≤ x) (h1 : x < 360) : fmod360 x = x := by
  have hfloor : ⌊x / 360⌋ = 0 := by
    rw [Int.floor_eq_zero_iff]
    constructor
    · positivity
    · rw [div_lt_one (by norm_num : (0:ℝ) < 360)]; exact h1
  unfold fmod360
  rw [hfloor]
  norm_num

theorem fmod360_sub_360 (x : ℝ) : fmod360 (x - 360) = fmod360 x := by
  have : (x - 360) / 360 = x / 360 - (1 : ℤ) := by push_cast; ring
  unfold fmod360
  rw [this, Int.floor_sub_int]
  push_cast
  ring

/-- One iteration step of the sampling loop of `calculate_sun_positions`
(`main.py` lines 89-104): while `current_time <= sunset_time` (18:00 UTC =
minute 1080), query the ephemeris for altitude and azimuth at `current`,
append the sample, and advance by 10 minutes.  The ephemeris calls
`get_altitude`/`get_azimuth` are external collaborators that may raise,
modelled as `Except`-valued functions of the minute; a raised exception
aborts the loop and propagates. -/
noncomputable def sunLoop (get_altitude get_azimuth : Nat → Except String ℝ)
    (current : Nat) : Except String (List SolarSample) :=
  if _h : current ≤ 1080 then
    match get_altitude current with
    | Except.error e => Except.error e
    | Except.ok altitude =>
      match get_azimuth current with
      | Except.error e => Except.error e
      | Except.ok azimuth =>
        match sunLoop get_altitude get_azimuth (current + 10) with
        | Except.error e => Except.error e
        | Except.ok rest =>
          Except.ok ({ time := current, altitude := altitude, azimuth := azimuth } :: rest)
  else
    Except.ok []
termination_by 1081 - current
decreasing_by omega

/-- `calculate_sun_positions` (`main.py` lines 61-110).  `parse_date` models
`datetime.strptime(date, "%Y-%m-%d")`, which may raise on a malformed date
string; the window is the fixed 06:00 (minute 360) to 18:00 (minute 1080)
UTC approximation.  The surrounding `try/except` catches any exception from
parsing or the ephemeris, prints a diagnostic, and returns the empty list. -/
noncomputable def calculate_sun_positions (parse_date : Except String Nat)
    (get_altitude get_azimuth : Nat → Except String ℝ) : List SolarSample :=
  match (match parse_date with
         | Except.error e => Except.error e
         | Except.ok _ => sunLoop get_altitude get_azimuth 360) with
  | Except.ok sun_positions => sun_positions
  | Except.error _ => []

/-- Python's format specifier `:.2f` applied to a value that may be `None`
(`main.py` lines 318-320 and 326-327): formatting a float succeeds, while
`None.__format__('.2f')` raises a `TypeError`. -/
def format_float (x : Option ℝ) : Except String ℝ :=
  match x with
  | some v => Except.ok v
  | none => Except.error "TypeError: unsupported format string passed to NoneType.__format__"

/-- The shadow-data reporting loop of the driver (`main.py` lines 315-320):
each entry's `shadow_length` and `shadow_direction` are formatted with
`:.2f`; a `None` field raises. -/
def report_shadow_data : List ShadowRecord → Except String Unit
  | [] => Except.ok ()
  | entry :: rest =>
    match format_float entry.shadow_length with
    | Except.error e => Except.error e
    | Except.ok _ =>
      match format_float entry.shadow_direction with
      | Except.error e => Except.error e
      | Except.ok _ => report_shadow_data rest

/-- The coordinate reporting loop of the driver (`main.py` lines 323-327):
each entry's `x1, y1, x2, y2` are formatted with `:.2f`; a `None` field
raises. -/
def report_shadow_coordinates : List ShadowSegment → Except String Unit
  | [] => Except.ok ()
  | entry :: rest =>
    match format_float entry.x1 with
    | Except.error e => Except.error e
    | Except.ok _ =>
      match format_float entry.y1 with
      | Except.error e => Except.error e
      | Except.ok _ =>
        match format_float entry.x2 with
        | Except.error e => Except.error e
        | Except.ok _ =>
          match format_float entry.y2 with
          | Except.error e => Except.error e
          | Except.ok _ => report_shadow_coordinates rest

/-- The pipeline part of the `__main__` driver (`main.py` lines 314-339),
from `calculate_shadow` to the hand-off of the coordinates to
`plot_shadow_pattern`.  `if shadow_data:` is list truthiness (non-empty);
there is no `try/except` in the driver, so any `TypeError` raised while
formatting propagates and aborts the run before plotting.  The sun-data and
irradiance reports format plain floats and cannot raise, so they are elided;
the returned segments are what reaches the plotting collaborator. -/
noncomputable def main_pipeline (pole_height E_clear : ℝ) (sun_data : List SolarSample) :
    Except String (List ShadowSegment) :=
  let shadow_data := calculate_shadow pole_height sun_data
  match (if shadow_data.isEmpty then Except.ok () else report_shadow_data shadow_data) with
  | Except.error e => Except.error e
  | Except.ok _ =>
    match calculate_shadow_coordinates shadow_data with
    | Except.error e => Except.error e
    | Except.ok shadow_coordinates =>
      match (if shadow_coordinates.isEmpty then Except.ok ()
             else report_shadow_coordinates shadow_coordinates) with
      | Except.error e => Except.error e
      | Except.ok _ =>
        let _ := calculate_irradiance sun_data E_clear
        Except.ok shadow_coordinates

/-- C2: for every solar sample with altitude > 0, the shadow-geometry stage
computes `shadow_length = pole_height / tan(radians(altitude))`; no
near-horizon special-casing, the formula applies to every positive
altitude. -/
theorem shadow_length_formula (pole_height : ℝ) (sun_data : List SolarSample)
    (k : Nat) (s : SolarSample) (hk : sun_data[k]? = some s) (halt : 0 < s.altitude) :
    ∃ r, (calculate_shadow pole_height sun_data)[k]? = some r ∧
      r.shadow_length = some (pole_height / Real.tan (radians s.altitude)) := by
  refine ⟨shadow_entry pole_height s, ?_, ?_⟩
  · simp [calculate_shadow, hk]
  · simp [shadow_entry, halt]

theorem shadow_length_formula_witness :
    ([SolarSample.mk 0 30 90][0]? = some (SolarSample.mk 0 30 90)) ∧
      0 < (SolarSample.mk 0 30 90).altitude ∧
      ∃ r, (calculate_shadow 10 [SolarSample.mk 0 30 90])[0]? = some r ∧
        r.shadow_length = some (10 / Real.tan (radians (SolarSample.mk 0 30 90).altitude)) :=
  ⟨rfl, by norm_num,
    shadow_length_formula 10 [SolarSample.mk 0 30 90] 0 (SolarSample.mk 0 30 90) rfl
      (by norm_num)⟩

/-- C3: for every shadow record produced from a sample with altitude > 0,
`shadow_direction = (azimuth + 180) % 360`, and the result lies in
`[0, 360)`. -/
theorem shadow_direction_formula (pole_height : ℝ) (sun_data : List SolarSample)
    (k : Nat) (s : SolarSample) (hk : sun_data[k]? = some s) (halt : 0 < s.altitude) :
    ∃ r, (calculate_shadow pole_height sun_data)[k]? = some r ∧
      r.shadow_direction = some (fmod360 (s.azimuth + 180)) ∧
      0 ≤ fmod360 (s.azimuth + 180) ∧ fmod360 (s.azimuth + 180) < 360 := by
  refine ⟨shadow_entry pole_height s, ?_, ?_, fmod360_nonneg _, fmod360_lt _⟩
  · simp [calculate_shadow, hk]
  · simp [shadow_entry, halt]

theorem shadow_direction_formula_witness :
    ([SolarSample.mk 0 30 90][0]? = some (SolarSample.mk 0 30 90)) ∧
      0 < (SolarSample.mk 0 30 90).altitude ∧
      ∃ r, (calculate_shadow 10 [SolarSample.mk 0 30 90])[0]? = some r ∧
        r.shadow_direction = some (fmod360 ((SolarSample.mk 0 30 90).azimuth + 180)) ∧
        0 ≤ fmod360 ((SolarSample.mk 0 30 90).azimuth + 180) ∧
        fmod360 ((SolarSample.mk 0 30 90).azimuth + 180) < 360 :=
  ⟨rfl, by norm_num,
    shadow_direction_formula 10 [SolarSample.mk 0 30 90] 0 (SolarSample.mk 0 30 90) rfl
      (by norm_num)⟩

/-- C10: for every real azimuth, including values outside `[0, 360)` (and in
particular negative ones), `calculate_shadow` still produces a
`shadow_direction` in `[0, 360)` when altitude > 0, because the embedded
Python `%` with positive modulus lands in `[0, 360)` for every operand. -/
theorem shadow_direction_in_range (pole_height : ℝ) (t : Nat) (altitude azimuth : ℝ)
    (halt : 0 < altitude) :
    ∃ d, (shadow_entry pole_height (SolarSample.mk t altitude azimuth)).shadow_direction =
      some d ∧ 0 ≤ d ∧ d < 360 :=
  ⟨fmod360 (azimuth + 180), by simp [shadow_entry, halt], fmod360_nonneg _, fmod360_lt _⟩

theorem shadow_direction_in_range_witness :
    (0 : ℝ) < 10 ∧
      ∃ d, (shadow_entry 10 (SolarSample.mk 0 10 (-45))).shadow_direction = some d ∧
        0 ≤ d ∧ d < 360 :=
  ⟨by norm_num, shadow_direction_in_range 10 0 10 (-45) (by norm_num)⟩

/-- C4: with the default clear-sky constant 1361, a sample with altitude > 0
yields `outside = 1361·sin(radians altitude) + 0.15·1361` and
`inside = 0.15·1361` exactly, a sample with altitude ≤ 0 yields
`outside = inside = 0`, and `inside ≤ outside` holds for every record (the
altitude of a solar sample lies in [-90, 90], so any bound ≤ 180 keeps the
direct component nonnegative). -/
theorem irradiance_values (sun_data : List SolarSample) (k : Nat) (s : SolarSample)
    (hk : sun_data[k]? = some s) (hdom : s.altitude ≤ 180) :
    ∃ r, (calculate_irradiance sun_data 1361)[k]? = some r ∧
      (0 < s.altitude →
        r.E_outside_shadow = 1361 * Real.sin (radians s.altitude) + 0.15 * 1361 ∧
        r.E_inside_shadow = 0.15 * 1361) ∧
      (s.altitude ≤ 0 → r.E_outside_shadow = 0 ∧ r.E_inside_shadow = 0) ∧
      r.E_inside_shadow ≤ r.E_outside_shadow := by
  refine ⟨irradiance_entry 1361 s, ?_, ?_, ?_, ?_⟩
  · simp [calculate_irradiance, hk]
  · intro h
    simp [irradiance_entry, h]
  · intro h
    simp [irradiance_entry, not_lt.mpr h]
  · by_cases h : s.altitude > 0
    · have hrad0 : 0 ≤ radians s.altitude := by
        unfold radians
        positivity
      have hradpi : radians s.altitude ≤ Real.pi := by
        unfold radians
        nlinarith [Real.pi_pos]
      have hsin : 0 ≤ Real.sin (radians s.altitude) :=
        Real.sin_nonneg_of_nonneg_of_le_pi hrad0 hradpi
      simp only [irradiance_entry, if_pos h]
      nlinarith
    · simp [irradiance_entry, h]

theorem irradiance_values_witness :
    ([SolarSample.mk 0 30 90][0]? = some (SolarSample.mk 0 30 90)) ∧
      (SolarSample.mk 0 30 90).altitude ≤ 180 ∧
      ∃ r, (calculate_irradiance [SolarSample.mk 0 30 90] 1361)[0]? = some r ∧
        (0 < (SolarSample.mk 0 30 90).altitude →
          r.E_outside_shadow =
            1361 * Real.sin (radians (SolarSample.mk 0 30 90).altitude) + 0.15 * 1361 ∧
          r.E_inside_shadow = 0.15 * (1361 : ℝ)) ∧
        ((SolarSample.mk 0 30 90).altitude ≤ 0 →
          r.E_outside_shadow = 0 ∧ r.E_inside_shadow = 0) ∧
        r.E_inside_shadow ≤ r.E_outside_shadow :=
  ⟨rfl, by norm_num,
    irradiance_values [SolarSample.mk 0 30 90] 0 (SolarSample.mk 0 30 90) rfl (by norm_num)⟩

/-- C1: horizon consistency across all stages.  For corresponding entries of
the sample list, the shadow list, the (always successfully computed)
coordinate list and the irradiance list (with the driver's default
`E_clear = 1361`): altitude ≤ 0 iff the shadow fields are `None`, iff the
segment endpoint is `None`, iff outside and inside irradiance are both 0. -/
theorem horizon_consistency (pole_height : ℝ) (sun_data : List SolarSample)
    (segs : List ShadowSegment)
    (hsegs : calculate_shadow_coordinates (calculate_shadow pole_height sun_data) =
      Except.ok segs)
    (k : Nat) (s : SolarSample) (sh : ShadowRecord) (seg : ShadowSegment)
    (irr : IrradianceRecord)
    (hs : sun_data[k]? = some s)
    (hsh : (calculate_shadow pole_height sun_data)[k]? = some sh)
    (hseg : segs[k]? = some seg)
    (hirr : (calculate_irradiance sun_data 1361)[k]? = some irr) :
    (s.altitude ≤ 0 ↔ sh.shadow_length = none ∧ sh.shadow_direction = none) ∧
    (s.altitude ≤ 0 ↔ seg.x2 = none ∧ seg.y2 = none) ∧
    (s.altitude ≤ 0 ↔ irr.E_outside_shadow = 0 ∧ irr.E_inside_shadow = 0) := by
  rw [calculate_shadow_coordinates_shadow] at hsegs
  have hsegs' : segs = sun_data.map (proj_entry pole_height) :=
    (Except.ok.injEq _ _).mp hsegs.symm
  subst hsegs'
  simp only [calculate_shadow, calculate_irradiance, List.getElem?_map, hs,
    Option.map_some', Option.some.injEq] at hsh hseg hirr
  subst hsh
  subst hseg
  subst hirr
  by_cases h : 0 < s.altitude
  · have h' : ¬ s.altitude ≤ 0 := not_le.mpr h
    simp only [shadow_entry, proj_entry, irradiance_entry, if_pos h]
    refine ⟨by simp [h'], by simp [h'], ?_⟩
    simp only [h', false_iff]
    intro hc
    have := hc.2
    norm_num at this
  · have h' : s.altitude ≤ 0 := not_lt.mp h
    simp [shadow_entry, proj_entry, irradiance_entry, if_neg h, h']

theorem horizon_consistency_witness :
    (calculate_shadow_coordinates (calculate_shadow 10 [SolarSample.mk 0 (-5) 100]) =
      Except.ok [proj_entry 10 (SolarSample.mk 0 (-5) 100)]) ∧
    (((SolarSample.mk 0 (-5) 100).altitude ≤ 0 ↔
        (shadow_entry 10 (SolarSample.mk 0 (-5) 100)).shadow_length = none ∧
        (shadow_entry 10 (SolarSample.mk 0 (-5) 100)).shadow_direction = none) ∧
      ((SolarSample.mk 0 (-5) 100).altitude ≤ 0 ↔
        (proj_entry 10 (SolarSample.mk 0 (-5) 100)).x2 = none ∧
        (proj_entry 10 (SolarSample.mk 0 (-5) 100)).y2 = none) ∧
      ((SolarSample.mk 0 (-5) 100).altitude ≤ 0 ↔
        (irradiance_entry 1361 (SolarSample.mk 0 (-5) 100)).E_outside_shadow = 0 ∧
        (irradiance_entry 1361 (SolarSample.mk 0 (-5) 100)).E_inside_shadow = 0)) :=
  ⟨calculate_shadow_coordinates_shadow 10 [SolarSample.mk 0 (-5) 100],
    horizon_consistency 10 [SolarSample.mk 0 (-5) 100]
      [proj_entry 10 (SolarSample.mk 0 (-5) 100)]
      (calculate_shadow_coordinates_shadow 10 [SolarSample.mk 0 (-5) 100])
      0 (SolarSample.mk 0 (-5) 100) (shadow_entry 10 (SolarSample.mk 0 (-5) 100))
      (proj_entry 10 (SolarSample.mk 0 (-5) 100))
      (irradiance_entry 1361 (SolarSample.mk 0 (-5) 100)) rfl rfl rfl rfl⟩

theorem shadow_entry_time (pole_height : ℝ) (s : SolarSample) :
    (shadow_entry pole_height s).time = s.time := by
  by_cases h : s.altitude > 0 <;> simp [shadow_entry, h]

theorem irradiance_entry_time (E_clear : ℝ) (s : SolarSample) :
    (irradiance_entry E_clear s).time = s.time := by
  by_cases h : s.altitude > 0 <;> simp [irradiance_entry, h]

theorem coord_entry_time (r : ShadowRecord) (seg : ShadowSegment)
    (h : coord_entry r = Except.ok seg) : seg.time = r.time := by
  unfold coord_entry at h
  match hl : r.shadow_length with
  | none =>
    rw [hl] at h
    cases h
    rfl
  | some L =>
    match hd : r.shadow_direction with
    | none =>
      rw [hl, hd] at h
      cases h
    | some d =>
      rw [hl, hd] at h
      cases h
      rfl

theorem coords_ok_of_wf (l : List ShadowRecord)
    (hwf : ∀ r ∈ l, r.shadow_length ≠ none → r.shadow_direction ≠ none) :
    ∃ segs : List ShadowSegment, calculate_shadow_coordinates l = Except.ok segs ∧
      segs.length = l.length ∧
      ∀ k : Nat, (segs[k]?).map ShadowSegment.time = (l[k]?).map ShadowRecord.time := by
  induction l with
  | nil => exact ⟨[], rfl, rfl, fun k => rfl⟩
  | cons r rest ih =>
    obtain ⟨segs, hsegs, hlen, htime⟩ :=
      ih (fun x hx => hwf x (List.mem_cons_of_mem r hx))
    have hbody : ∃ seg, coord_entry r = Except.ok seg := by
      unfold coord_entry
      match hl : r.shadow_length with
      | none => exact ⟨_, rfl⟩
      | some L =>
        match hd : r.shadow_direction with
        | none =>
          exact absurd hd (hwf r (List.mem_cons_self r rest) (by rw [hl]; simp))
        | some d => exact ⟨_, rfl⟩
    obtain ⟨seg, hseg⟩ := hbody
    refine ⟨seg :: segs, ?_, by simpa using hlen, ?_⟩
    · unfold calculate_shadow_coordinates
      rw [hseg, hsegs]
    · intro k
      cases k with
      | zero => simp [coord_entry_time r seg hseg]
      | succ n => simpa using htime n

/-- C7: each stage returns a sequence of the same length as its input with
the k-th output timestamp equal to the k-th input timestamp.  The
coordinate stage needs its input to satisfy the ShadowRecord well-formedness
invariant (direction present whenever length is present), which every list
produced by `calculate_shadow` satisfies. -/
theorem timestamp_preservation (pole_height E_clear : ℝ) (sun_data : List SolarSample)
    (shadow_data : List ShadowRecord)
    (hwf : ∀ r ∈ shadow_data, r.shadow_length ≠ none → r.shadow_direction ≠ none) :
    ((calculate_shadow pole_height sun_data).length = sun_data.length ∧
      ∀ k : Nat, ((calculate_shadow pole_height sun_data)[k]?).map ShadowRecord.time =
        (sun_data[k]?).map SolarSample.time) ∧
    ((calculate_irradiance sun_data E_clear).length = sun_data.length ∧
      ∀ k : Nat, ((calculate_irradiance sun_data E_clear)[k]?).map IrradianceRecord.time =
        (sun_data[k]?).map SolarSample.time) ∧
    (∃ segs : List ShadowSegment, calculate_shadow_coordinates shadow_data = Except.ok segs ∧
      segs.length = shadow_data.length ∧
      ∀ k : Nat, (segs[k]?).map ShadowSegment.time = (shadow_data[k]?).map ShadowRecord.time) := by
  refine ⟨⟨by simp [calculate_shadow], ?_⟩, ⟨by simp [calculate_irradiance], ?_⟩,
    coords_ok_of_wf shadow_data hwf⟩
  · intro k
    rw [calculate_shadow, List.getElem?_map]
    cases sun_data[k]? with
    | none => rfl
    | some s => simp [shadow_entry_time]
  · intro k
    rw [calculate_irradiance, List.getElem?_map]
    cases sun_data[k]? with
    | none => rfl
    | some s => simp [irradiance_entry_time]

theorem timestamp_preservation_witness :
    (∀ r ∈ [ShadowRecord.mk 7 none none],
      r.shadow_length ≠ none → r.shadow_direction ≠ none) ∧
    (((calculate_shadow 10 [SolarSample.mk 3 30 90]).length =
        [SolarSample.mk 3 30 90].length ∧
      ∀ k : Nat, ((calculate_shadow 10 [SolarSample.mk 3 30 90])[k]?).map ShadowRecord.time =
        ([SolarSample.mk 3 30 90][k]?).map SolarSample.time) ∧
    ((calculate_irradiance [SolarSample.mk 3 30 90] 1361).length =
        [SolarSample.mk 3 30 90].length ∧
      ∀ k : Nat, ((calculate_irradiance [SolarSample.mk 3 30 90] 1361)[k]?).map
        IrradianceRecord.time = ([SolarSample.mk 3 30 90][k]?).map SolarSample.time) ∧
    (∃ segs : List ShadowSegment, calculate_shadow_coordinates [ShadowRecord.mk 7 none none] = Except.ok segs ∧
      segs.length = [ShadowRecord.mk 7 none none].length ∧
      ∀ k : Nat, (segs[k]?).map ShadowSegment.time =
        ([ShadowRecord.mk 7 none none][k]?).map ShadowRecord.time)) :=
  ⟨by simp, timestamp_preservation 10 1361 [SolarSample.mk 3 30 90]
    [ShadowRecord.mk 7 none none] (by simp)⟩

theorem report_shadow_data_error (l : List ShadowRecord)
    (h : ∃ r ∈ l, r.shadow_length = none) :
    report_shadow_data l =
      Except.error "TypeError: unsupported format string passed to NoneType.__format__" := by
  induction l with
  | nil => simp at h
  | cons r rest ih =>
    unfold report_shadow_data
    match hl : r.shadow_length with
    | none => rfl
    | some L =>
      simp only [format_float]
      match hd : r.shadow_direction with
      | none => rfl
      | some d =>
        obtain ⟨r', hr', hnone⟩ := h
        rcases List.mem_cons.mp hr' with rfl | hmem
        · rw [hl] at hnone
          cases hnone
        · exact ih ⟨r', hmem, hnone⟩

/-- C9: if any sample of the day has altitude ≤ 0, the driver's shadow-data
report formats a `None` with `:.2f`, which raises a `TypeError` that
propagates and aborts the run before the plotting hand-off. -/
theorem none_formatting_raises (pole_height E_clear : ℝ) (sun_data : List SolarSample)
    (h : ∃ s ∈ sun_data, s.altitude ≤ 0) :
    main_pipeline pole_height E_clear sun_data =
      Except.error "TypeError: unsupported format string passed to NoneType.__format__" := by
  obtain ⟨s, hmem, halt⟩ := h
  have hnonempty : (calculate_shadow pole_height sun_data).isEmpty = false := by
    cases hd : sun_data with
    | nil => rw [hd] at hmem; cases hmem
    | cons a rest => simp [calculate_shadow, hd]
  have herr : report_shadow_data (calculate_shadow pole_height sun_data) =
      Except.error "TypeError: unsupported format string passed to NoneType.__format__" := by
    refine report_shadow_data_error _ ⟨shadow_entry pole_height s, ?_, ?_⟩
    · exact List.mem_map_of_mem (shadow_entry pole_height) hmem
    · simp [shadow_entry, not_lt.mpr halt]
  unfold main_pipeline
  simp only [hnonempty, Bool.false_eq_true, if_false, herr]

theorem none_formatting_raises_witness :
    (∃ s ∈ [SolarSample.mk 0 (-5) 100], s.altitude ≤ 0) ∧
    main_pipeline 10 1361 [SolarSample.mk 0 (-5) 100] =
      Except.error "TypeError: unsupported format string passed to NoneType.__format__" :=
  ⟨⟨SolarSample.mk 0 (-5) 100, List.mem_singleton.mpr rfl, by norm_num⟩,
    none_formatting_raises 10 1361 [SolarSample.mk 0 (-5) 100]
      ⟨SolarSample.mk 0 (-5) 100, List.mem_singleton.mpr rfl, by norm_num⟩⟩

theorem sunLoop_ok (get_altitude get_azimuth : Nat → Except String ℝ)
    (halt : ∀ m, ∃ v, get_altitude m = Except.ok v)
    (haz : ∀ m, ∃ v, get_azimuth m = Except.ok v) (current : Nat) :
    ∃ l : List SolarSample, sunLoop get_altitude get_azimuth current = Except.ok l ∧
      l.map SolarSample.time =
        (List.range (if current ≤ 1080 then (1080 - current) / 10 + 1 else 0)).map
          (fun k => current + 10 * k) := by
  by_cases h : current ≤ 1080
  · obtain ⟨a, ha⟩ := halt current
    obtain ⟨b, hb⟩ := haz current
    obtain ⟨rest, hrest, hmap⟩ := sunLoop_ok get_altitude get_azimuth halt haz (current + 10)
    refine ⟨⟨current, a, b⟩ :: rest, ?_, ?_⟩
    · rw [sunLoop, dif_pos h, ha, hb, hrest]
    · have hn : (if current ≤ 1080 then (1080 - current) / 10 + 1 else 0) =
          (if current + 10 ≤ 1080 then (1080 - (current + 10)) / 10 + 1 else 0) + 1 := by
        by_cases h10 : current + 10 ≤ 1080 <;> simp only [h, h10, if_pos, if_neg,
          if_true, if_false] <;> omega
      rw [List.map_cons, hmap, hn, List.range_succ_eq_map, List.map_cons, List.map_map]
      refine congrArg₂ List.cons (by simp) (List.map_congr_left ?_)
      intro a _
      simp only [Function.comp_apply]
      omega
  · exact ⟨[], by rw [sunLoop, dif_neg h], by rw [if_neg h]; rfl⟩
termination_by 1081 - current
decreasing_by omega

/-- C6: for every valid date (a date string that parses) and a working
ephemeris, the sampler walks the fixed 06:00-18:00 UTC window (minutes 360
to 1080) in 10-minute steps, both endpoints included, in ascending order:
exactly 73 samples, the k-th taken at minute 360 + 10k. -/
theorem sampler_sample_count (parse_date : Except String Nat)
    (get_altitude get_azimuth : Nat → Except String ℝ) (d : Nat)
    (hp : parse_date = Except.ok d)
    (halt : ∀ m, ∃ v, get_altitude m = Except.ok v)
    (haz : ∀ m, ∃ v, get_azimuth m = Except.ok v) :
    (calculate_sun_positions parse_date get_altitude get_azimuth).length = 73 ∧
    ∀ k : Nat, k < 73 →
      ((calculate_sun_positions parse_date get_altitude get_azimuth)[k]?).map
        SolarSample.time = some (360 + 10 * k) := by
  obtain ⟨l, hl, hmap⟩ := sunLoop_ok get_altitude get_azimuth halt haz 360
  have heq : calculate_sun_positions parse_date get_altitude get_azimuth = l := by
    unfold calculate_sun_positions
    rw [hp, hl]
  norm_num at hmap
  rw [heq]
  constructor
  · have := congrArg List.length hmap
    simpa using this
  · intro k hk
    have h1 : (List.map SolarSample.time l)[k]? = some (360 + 10 * k) := by
      rw [hmap, List.getElem?_map, List.getElem?_range hk]
      rfl
    rw [List.getElem?_map] at h1
    exact h1

theorem sampler_sample_count_witness :
    (calculate_sun_positions (Except.ok 0) (fun _ => Except.ok 45) (fun _ => Except.ok 90)).length
      = 73 ∧
    ((calculate_sun_positions (Except.ok 0) (fun _ => Except.ok 45)
      (fun _ => Except.ok 90))[72]?).map SolarSample.time = some (360 + 10 * 72) :=
  ⟨(sampler_sample_count (Except.ok 0) (fun _ => Except.ok 45) (fun _ => Except.ok 90) 0 rfl
      (fun _ => ⟨45, rfl⟩) (fun _ => ⟨90, rfl⟩)).1,
    (sampler_sample_count (Except.ok 0) (fun _ => Except.ok 45) (fun _ => Except.ok 90) 0 rfl
      (fun _ => ⟨45, rfl⟩) (fun _ => ⟨90, rfl⟩)).2 72 (by norm_num)⟩

theorem sunLoop_error (get_altitude get_azimuth : Nat → Except String ℝ) (current m : Nat)
    (hcm : current ≤ m) (hm : m ≤ 1080) (hstep : (m - current) % 10 = 0)
    (hfail : (∃ e, get_altitude m = Except.error e) ∨
      (∃ e, get_azimuth m = Except.error e)) :
    ∃ e, sunLoop get_altitude get_azimuth current = Except.error e := by
  have h : current ≤ 1080 := le_trans hcm hm
  by_cases heq : current = m
  · subst heq
    cases ha : get_altitude current with
    | error ea => exact ⟨ea, by rw [sunLoop, dif_pos h, ha]⟩
    | ok a =>
      rcases hfail with ⟨e, he⟩ | ⟨e, he⟩
      · rw [ha] at he
        cases he
      · exact ⟨e, by rw [sunLoop, dif_pos h, ha, he]⟩
  · have hlt : current < m := lt_of_le_of_ne hcm heq
    obtain ⟨e', he'⟩ := sunLoop_error get_altitude get_azimuth (current + 10) m
      (by omega) hm (by omega) hfail
    cases ha : get_altitude current with
    | error ea => exact ⟨ea, by rw [sunLoop, dif_pos h, ha]⟩
    | ok a =>
      cases hb : get_azimuth current with
      | error eb => exact ⟨eb, by rw [sunLoop, dif_pos h, ha, hb]⟩
      | ok b => exact ⟨e', by rw [sunLoop, dif_pos h, ha, hb, he']⟩
termination_by m - current
decreasing_by omega

/-- C8: if date parsing fails, or the ephemeris raises at any sampled minute
of the 06:00-18:00 window, the sampler catches the exception and returns the
empty list for the whole day: no exception escapes and no partial list is
returned. -/
theorem sampler_failure_empty (parse_date : Except String Nat)
    (get_altitude get_azimuth : Nat → Except String ℝ)
    (h : (∃ e, parse_date = Except.error e) ∨
      (∃ m, 360 ≤ m ∧ m ≤ 1080 ∧ (m - 360) % 10 = 0 ∧
        ((∃ e, get_altitude m = Except.error e) ∨
          (∃ e, get_azimuth m = Except.error e)))) :
    calculate_sun_positions parse_date get_altitude get_azimuth = [] := by
  unfold calculate_sun_positions
  rcases h with ⟨e, he⟩ | ⟨m, hm1, hm2, hm3, hfail⟩
  · rw [he]
  · obtain ⟨e', he'⟩ := sunLoop_error get_altitude get_azimuth 360 m hm1 hm2 hm3 hfail
    cases parse_date with
    | error e => rfl
    | ok d => rw [he']

theorem sampler_failure_empty_witness :
    calculate_sun_positions (Except.ok 0)
      (fun m => if m = 500 then Except.error "ephemeris failure" else Except.ok 45)
      (fun _ => Except.ok 90) = [] :=
  sampler_failure_empty (Except.ok 0)
    (fun m => if m = 500 then Except.error "ephemeris failure" else Except.ok 45)
    (fun _ => Except.ok 90)
    (Or.inr ⟨500, by norm_num, by norm_num, by norm_num,
      Or.inl ⟨"ephemeris failure", by simp⟩⟩)

theorem atan2_mul_cos_sin {L t : ℝ} (hL : 0 < L) (h0 : 0 ≤ t) (h1 : t < 2 * Real.pi) :
    atan2 (L * Real.sin t) (L * Real.cos t) =
      if t ≤ Real.pi then t else t - 2 * Real.pi := by
  unfold atan2
  have hc : ((L * Real.cos t : ℝ) : ℂ) + ((L * Real.sin t : ℝ) : ℂ) * Complex.I =
      (L : ℂ) * (Complex.cos t + Complex.sin t * Complex.I) := by
    rw [← Complex.ofReal_cos, ← Complex.ofReal_sin]
    push_cast
    ring
  by_cases hpi : t ≤ Real.pi
  · rw [hc, if_pos hpi,
      Complex.arg_mul_cos_add_sin_mul_I hL ⟨by linarith [Real.pi_pos], hpi⟩]
  · rw [if_neg hpi]
    have e1 : Complex.cos (t : ℂ) = Complex.cos ((t - 2 * Real.pi : ℝ) : ℂ) := by
      rw [← Complex.ofReal_cos, ← Complex.ofReal_cos, Real.cos_sub_two_pi]
    have e2 : Complex.sin (t : ℂ) = Complex.sin ((t - 2 * Real.pi : ℝ) : ℂ) := by
      rw [← Complex.ofReal_sin, ← Complex.ofReal_sin, Real.sin_sub_two_pi]
    rw [hc, e1, e2,
      Complex.arg_mul_cos_add_sin_mul_I hL
        ⟨by linarith, by linarith [Real.pi_pos]⟩]

/-- C5 (amended): for a shadow record with present fields, positive length
and direction in `[0, 360)`, the projected endpoint satisfies both
round-trips exactly over the reals: `hypot` returns the length and
`atan2`, converted to degrees and reduced mod 360, returns the direction.
(`shadow_length ≥ 0` alone is not enough: see the zero-length
counterexample.) -/
theorem projection_round_trip (t : Nat) (L d : ℝ) (hL : 0 < L) (hd0 : 0 ≤ d)
    (hd1 : d < 360) (seg : ShadowSegment)
    (hseg : coord_entry (ShadowRecord.mk t (some L) (some d)) = Except.ok seg) :
    seg.x2 = some (L * Real.cos (radians d)) ∧
    seg.y2 = some (L * Real.sin (radians d)) ∧
    hypot (L * Real.cos (radians d)) (L * Real.sin (radians d)) = L ∧
    fmod360 (atan2 (L * Real.sin (radians d)) (L * Real.cos (radians d)) * 180 / Real.pi)
      = d := by
  simp only [coord_entry, Except.ok.injEq] at hseg
  subst hseg
  refine ⟨rfl, rfl, ?_, ?_⟩
  · unfold hypot
    rw [show (L * Real.cos (radians d)) ^ 2 + (L * Real.sin (radians d)) ^ 2 =
        L ^ 2 * (Real.sin (radians d) ^ 2 + Real.cos (radians d) ^ 2) from by ring,
      Real.sin_sq_add_cos_sq, mul_one, Real.sqrt_sq hL.le]
  · have hr0 : 0 ≤ radians d := by
      unfold radians
      exact div_nonneg (mul_nonneg hd0 Real.pi_pos.le) (by norm_num)
    have hr1 : radians d < 2 * Real.pi := by
      unfold radians
      nlinarith [Real.pi_pos]
    rw [atan2_mul_cos_sin hL hr0 hr1]
    by_cases hpi : radians d ≤ Real.pi
    · rw [if_pos hpi, show radians d * 180 / Real.pi = d from by
        unfold radians; field_simp]
      exact fmod360_eq_self hd0 hd1
    · rw [if_neg hpi, show (radians d - 2 * Real.pi) * 180 / Real.pi = d - 360 from by
        unfold radians; field_simp; ring]
      rw [fmod360_sub_360]
      exact fmod360_eq_self hd0 hd1

theorem projection_round_trip_witness :
    (0 : ℝ) < 10 ∧ (0 : ℝ) ≤ 270 ∧ (270 : ℝ) < 360 ∧
    ((ShadowSegment.mk 0 (some 0) (some 0) (some (10 * Real.cos (radians 270)))
        (some (10 * Real.sin (radians 270)))).x2 = some (10 * Real.cos (radians 270)) ∧
      (ShadowSegment.mk 0 (some 0) (some 0) (some (10 * Real.cos (radians 270)))
        (some (10 * Real.sin (radians 270)))).y2 = some (10 * Real.sin (radians 270)) ∧
      hypot (10 * Real.cos (radians 270)) (10 * Real.sin (radians 270)) = 10 ∧
      fmod360 (atan2 (10 * Real.sin (radians 270)) (10 * Real.cos (radians 270)) * 180 /
        Real.pi) = 270) :=
  ⟨by norm_num, by norm_num, by norm_num,
    projection_round_trip 0 10 270 (by norm_num) (by norm_num) (by norm_num)
      (ShadowSegment.mk 0 (some 0) (some 0) (some (10 * Real.cos (radians 270)))
        (some (10 * Real.sin (radians 270)))) rfl⟩

/-- C5 counterexample: for the (well-formed, present-field, length ≥ 0)
record with `shadow_length = 0` and `shadow_direction = 90`, the projection
collapses to the origin and the atan2-based reconstruction returns 0, not
90, so the round-trip as claimed — requiring only `shadow_length ≥ 0` —
fails at this input. -/
theorem projection_round_trip_zero_length :
    coord_entry (ShadowRecord.mk 0 (some 0) (some 90)) =
      Except.ok (ShadowSegment.mk 0 (some 0) (some 0)
        (some (0 * Real.cos (radians 90))) (some (0 * Real.sin (radians 90)))) ∧
    (0 : ℝ) ≤ 0 ∧
    fmod360 (atan2 (0 * Real.sin (radians 90)) (0 * Real.cos (radians 90)) * 180 / Real.pi)
      ≠ 90 := by
  refine ⟨rfl, le_refl 0, ?_⟩
  rw [zero_mul, zero_mul]
  have h3 : atan2 0 0 = 0 := by
    unfold atan2
    rw [show ((0 : ℝ) : ℂ) + ((0 : ℝ) : ℂ) * Complex.I = 0 from by push_cast; ring]
    exact Complex.arg_zero
  rw [h3, zero_mul, zero_div, fmod360_eq_self le_rfl (by norm_num)]
  norm_num

end ShadowSim
